import Mathlib

/-!
# pixiecore: backend selection and listener start-up (`pixiecore.go`)

A shallow embedding of `pickBooter` and `main` of `pixiecore.go`.

* Go strings are byte sequences: `GoString := List (Fin 256)`.
* The command line is the list of flag assignments handed to `flag.Parse`;
  the flag variables are the record `Flags`, initialised with the defaults
  of the `var ( ... )` block.
* `RemoteBooter`, `StaticBooter`, `Asset` and `tftp.Blob` are not defined in
  `pixiecore.go`; they are the fields of an environment `Env`.  What the
  handler of `tftp.Blob` answers is modelled from the spec (`tftpBlob`).
* Side effects (log lines, calls of the constructors, goroutine starts,
  `os.Exit`) are recorded, in program order, in a list of `Event`s.
-/

namespace Pixiecore

/-! ## Strings -/

/-- One byte of a Go string. -/
abbrev Byte := Fin 256

/-- Go `string` / `[]byte`: a finite sequence of bytes. -/
abbrev GoString := List Byte

/-- The bytes (UTF-8) of a string literal of the source. -/
def lit (s : String) : GoString :=
  (s.data.flatMap String.utf8EncodeChar).map (fun b => b.val)

/-- The separator used by `pickBooter`: the byte of `","`. -/
def comma : Byte := 44

/-- Go `strings.Split(s, sep)` for a separator `sep` of one byte (the call
in `pickBooter` passes `","`): the substrings of `s` between the occurrences
of `sep`, left to right.  The result is never empty; `n` occurrences of the
separator give `n + 1` substrings. -/
def stringsSplit (sep : Byte) : GoString → List GoString
  | [] => [[]]
  | c :: cs =>
    if c = sep then [] :: stringsSplit sep cs
    else
      match stringsSplit sep cs with
      | [] => [[c]]
      | w :: ws => (c :: w) :: ws

/-- Go `strings.Join(elems, sep)`. -/
def stringsJoin (sep : GoString) : List GoString → GoString
  | [] => []
  | [w] => w
  | w :: ws => w ++ sep ++ stringsJoin sep ws

/-- Decimal digits of a natural number, as bytes. -/
def natDigits (n : Nat) : GoString :=
  (Nat.toDigits 10 n).map (fun c => Fin.ofNat c.toNat)

/-- The verb `%d` of Go `fmt` applied to an `int`. -/
def fmtD : Int → GoString
  | Int.ofNat n => natDigits n
  | Int.negSucc n => lit "-" ++ natDigits (n + 1)

/-- Go `fmt.Sprintf("%s:%d", addr, port)`. -/
def sprintfAddr (addr : GoString) (port : Int) : GoString :=
  addr ++ lit ":" ++ fmtD port

/-! ## Flags -/

/-- The flag variables declared in the `var ( ... )` block.  `flag.Int` is a
Go `int`, `flag.Duration` a `time.Duration` (nanoseconds). -/
structure Flags where
  portDHCP : Int
  portPXE : Int
  portTFTP : Int
  portHTTP : Int
  listenAddr : GoString
  apiServer : GoString
  apiTimeout : Int
  kernelFile : GoString
  initrdFile : GoString
  kernelCmdline : GoString
  debug : Bool
deriving DecidableEq

/-- Go `time.Second`, in nanoseconds. -/
def timeSecond : Int := 1000000000

/-- The default values given in the flag declarations. -/
def defaultFlags : Flags where
  portDHCP := 67
  portPXE := 4011
  portTFTP := 69
  portHTTP := 70
  listenAddr := lit ""
  apiServer := lit ""
  apiTimeout := 5 * timeSecond
  kernelFile := lit ""
  initrdFile := lit ""
  kernelCmdline := lit ""
  debug := false

/-- One flag given on the command line, with its parsed value. -/
inductive FlagArg where
  | portDHCP (v : Int)
  | portPXE (v : Int)
  | portTFTP (v : Int)
  | portHTTP (v : Int)
  | listenAddr (v : GoString)
  | api (v : GoString)
  | apiTimeout (v : Int)
  | kernel (v : GoString)
  | initrd (v : GoString)
  | cmdline (v : GoString)
  | debug (v : Bool)
deriving DecidableEq

/-- Whether the argument is one of the four `-port-*` flags. -/
def FlagArg.isPort : FlagArg → Bool
  | .portDHCP _ => true
  | .portPXE _ => true
  | .portTFTP _ => true
  | .portHTTP _ => true
  | _ => false

/-- Whether the argument is `-api-timeout`. -/
def FlagArg.isApiTimeout : FlagArg → Bool
  | .apiTimeout _ => true
  | _ => false

/-- The effect of one command-line flag: it stores its value in its variable. -/
def setFlag (f : Flags) : FlagArg → Flags
  | .portDHCP v => { f with portDHCP := v }
  | .portPXE v => { f with portPXE := v }
  | .portTFTP v => { f with portTFTP := v }
  | .portHTTP v => { f with portHTTP := v }
  | .listenAddr v => { f with listenAddr := v }
  | .api v => { f with apiServer := v }
  | .apiTimeout v => { f with apiTimeout := v }
  | .kernel v => { f with kernelFile := v }
  | .initrd v => { f with initrdFile := v }
  | .cmdline v => { f with kernelCmdline := v }
  | .debug v => { f with debug := v }

/-- Go `flag.Parse()` on a well-formed command line: every variable keeps its
declared default unless a flag sets it; a later occurrence overrides an
earlier one. -/
def flagParse (args : List FlagArg) : Flags :=
  args.foldl setFlag defaultFlags

/-! ## Environment: the functions `pixiecore.go` calls but does not define -/

/-- A Go `error` value as seen by `pixiecore.go`: either made here by
`errors.New(msg)`, or handed back by a function defined elsewhere. -/
inductive GoError (X : Type) where
  | errorsNew (msg : String)
  | foreign (x : X)
deriving DecidableEq

/-- Modelled from the spec: the answer of the TFTP service to a read request
(section 4.4: the content of a file, or an explicit "file not found" error);
the `tftp` package is not part of `pixiecore.go`. -/
inductive TFTPReply where
  | data (content : GoString)
  | fileNotFound
  | failure
deriving DecidableEq

/-- Modelled from the spec: a `tftp.Handler`, which answers the read request
for a file name; the `tftp` package is not part of `pixiecore.go`. -/
abbrev TFTPHandler := GoString → TFTPReply

/-- The functions called by `pixiecore.go` and defined elsewhere, over a type
`B` of non-nil `Booter` values and a type `X` of error values they return.
`readable` is the state of the file system at start-up (whether a path
exists and can be read); no code of `pixiecore.go` consults it. -/
structure Env (B X : Type) where
  RemoteBooter : GoString → Int → Option B × Option X
  StaticBooter : GoString → List GoString → GoString → B
  Asset : GoString → GoString × Option X
  Blob : GoString → TFTPHandler
  readable : GoString → Bool

/-! ## Events -/

/-- The call made in the body of one of the four goroutines of `main`; the
goroutine hands the value the call returns to `log.Fatalln`. -/
inductive Listener (B : Type) where
  | serveProxyDHCP (addr : GoString) (booter : Option B)
  | servePXE (addr : GoString) (httpPort : Int)
  | tftpListenAndServe (network : String) (addr : GoString) (handler : TFTPHandler)
  | serveHTTP (addr : GoString) (port : Int) (booter : Option B) (ldlinux : GoString)

/-- The observable steps of `pickBooter` and `main`, in program order. -/
inductive Event (B X : Type) where
  | logPrintf (format : String) (args : List GoString)
  | callRemoteBooter (addr : GoString) (timeout : Int)
  | callStaticBooter (kernel : GoString) (initrds : List GoString) (cmdline : GoString)
  | flagUsage
  | fprintfStderr (format : String) (err : GoError X)
  | callAsset (name : GoString)
  | fmtPrintln (err : GoError X)
  | osExit (code : Int)
  | go (l : Listener B)
  | recordLogs (debug : Bool)

/-- Whether the step starts one of the four listeners. -/
def Event.isListenerStart {B X : Type} : Event B X → Bool
  | .go _ => true
  | _ => false

/-- Whether the step is a call of one of the two booter constructors. -/
def Event.isBooterConstruction {B X : Type} : Event B X → Bool
  | .callRemoteBooter _ _ => true
  | .callStaticBooter _ _ _ => true
  | _ => false

/-- The listener calls of a run, in the order the goroutines are started. -/
def listeners {B X : Type} : List (Event B X) → List (Listener B)
  | [] => []
  | .go l :: es => l :: listeners es
  | _ :: es => listeners es

/-! ## `pickBooter` -/

/-- What `pickBooter` returns, `(Booter, error)`, each possibly `nil`, and the
steps it performed. -/
structure PickResult (B X : Type) where
  booter : Option B
  err : Option (GoError X)
  trace : List (Event B X)

/-- The function `pickBooter` of `pixiecore.go`.  The `switch` takes the first
case whose condition holds: `*apiServer != ""`, then `*kernelFile != ""`, then
`default`. -/
def pickBooter {B X : Type} (env : Env B X) (f : Flags) : PickResult B X :=
  if f.apiServer ≠ [] then
    if f.kernelFile ≠ [] then
      ⟨none, some (.errorsNew "cannot provide -kernel with -api"), []⟩
    else if f.initrdFile ≠ [] then
      ⟨none, some (.errorsNew "cannot provide -initrd with -api"), []⟩
    else if f.kernelCmdline ≠ [] then
      ⟨none, some (.errorsNew "cannot provide -cmdline with -api"), []⟩
    else
      let r := env.RemoteBooter f.apiServer f.apiTimeout
      ⟨r.1, r.2.map GoError.foreign,
        [.logPrintf "Starting Pixiecore in API mode, with server %s" [f.apiServer],
         .callRemoteBooter f.apiServer f.apiTimeout]⟩
  else if f.kernelFile ≠ [] then
    if f.apiServer ≠ [] then
      ⟨none, some (.errorsNew "cannot provide -api with -kernel"), []⟩
    else
      let initrds : List GoString :=
        if f.initrdFile ≠ [] then stringsSplit comma f.initrdFile else []
      ⟨some (env.StaticBooter f.kernelFile initrds f.kernelCmdline), none,
        [.logPrintf "Starting Pixiecore in static mode" [],
         .callStaticBooter f.kernelFile initrds f.kernelCmdline]⟩
  else
    ⟨none, some (.errorsNew "must specify either -api, or -kernel/-initrd"), []⟩

/-! ## `main` -/

/-- The function `main` of `pixiecore.go`, as the list of its steps on the
command line `args`.  A run ends at `os.Exit`; otherwise the four goroutines
are started in source order and `main` goes on to `recordLogs`.  (The third
goroutine also installs the two logging hooks of the `tftp` package before
its call; they are not recorded.) -/
def main {B X : Type} (env : Env B X) (args : List FlagArg) : List (Event B X) :=
  let f := flagParse args
  let r := pickBooter env f
  r.trace ++
  match r.err with
  | some err => [.flagUsage, .fprintfStderr "\nERROR: %s\n" err, .osExit 1]
  | none =>
    let pxelinux := env.Asset (lit "lpxelinux.0")
    .callAsset (lit "lpxelinux.0") ::
    match pxelinux.2 with
    | some err => [.fmtPrintln (.foreign err), .osExit 1]
    | none =>
      let ldlinux := env.Asset (lit "ldlinux.c32")
      .callAsset (lit "ldlinux.c32") ::
      match ldlinux.2 with
      | some err => [.fmtPrintln (.foreign err), .osExit 1]
      | none =>
        [.go (.serveProxyDHCP (sprintfAddr f.listenAddr f.portDHCP) r.booter),
         .go (.servePXE (sprintfAddr f.listenAddr f.portPXE) f.portHTTP),
         .go (.tftpListenAndServe "udp4" (sprintfAddr f.listenAddr f.portTFTP)
                (env.Blob pxelinux.1)),
         .go (.serveHTTP f.listenAddr f.portHTTP r.booter ldlinux.1),
         .recordLogs f.debug]

/-- Start-up reaches the goroutines: backend selection and the loading of
both assets returned a nil error. -/
def startupOk {B X : Type} (env : Env B X) (f : Flags) : Prop :=
  (pickBooter env f).err = none ∧
  (env.Asset (lit "lpxelinux.0")).2 = none ∧
  (env.Asset (lit "ldlinux.c32")).2 = none

/-- The handlers of the TFTP services among the listener calls. -/
def tftpHandlers {B : Type} : List (Listener B) → List TFTPHandler
  | [] => []
  | .tftpListenAndServe _ _ h :: ls => h :: tftpHandlers ls
  | _ :: ls => tftpHandlers ls

/-- The HTTP port the PXE boot-service responder is given (the one it puts
in the HTTP locator it sends to clients). -/
def Listener.advertisedHTTPPort {B : Type} : Listener B → Option Int
  | .servePXE _ p => some p
  | _ => none

/-- The port the HTTP server is given to listen on. -/
def Listener.servedHTTPPort {B : Type} : Listener B → Option Int
  | .serveHTTP _ p _ _ => some p
  | _ => none

/-- Modelled from the spec: the request handling of the TFTP service of the
`tftp` package, which is missing from the source.  Section 4.4: the service
exposes a fixed set of file names; a read request for one of them returns the
exact content of that file, a request for any other file name a "file not
found" error. -/
def tftpServe (files : List (GoString × GoString)) : TFTPHandler :=
  fun name =>
    match files.lookup name with
    | some content => .data content
    | none => .fileNotFound

/-- Modelled from the spec: `tftp.Blob`, missing from the source, the handler
made from the content of one file.  The one file it is given by `main` is the
bootstrap loader, exposed under its fixed file name `lpxelinux.0` (sections 2
and 4.4: the loader is served to clients that request it by the well-known
file name). -/
def tftpBlob (b : GoString) : TFTPHandler :=
  tftpServe [(lit "lpxelinux.0", b)]

/-! ## A concrete environment -/

/-- Booter values of the sample environment: they record how they were made. -/
inductive SampleBooter where
  | remote (addr : GoString) (timeout : Int)
  | static (kernel : GoString) (initrds : List GoString) (cmdline : GoString)
deriving DecidableEq

/-- A sample environment: both constructors succeed, the two bundled assets
load, the TFTP handler is the one of `tftpBlob`, and no path of the file
system is readable. -/
def sampleEnv : Env SampleBooter String where
  RemoteBooter := fun a t => (some (.remote a t), none)
  StaticBooter := fun k l c => .static k l c
  Asset := fun name =>
    if name = lit "lpxelinux.0" then ([1, 2, 3], none)
    else if name = lit "ldlinux.c32" then ([4, 5], none)
    else ([], some "asset not found")
  Blob := tftpBlob
  readable := fun _ => false

/-! ## Lemmas on the flags -/

theorem lit_empty : lit "" = [] := rfl

/-- A flag that is not `-api-timeout` leaves the time-out as it is. -/
theorem setFlag_apiTimeout (f : Flags) (a : FlagArg) (h : a.isApiTimeout = false) :
    (setFlag f a).apiTimeout = f.apiTimeout := by
  cases a <;> simp_all [setFlag, FlagArg.isApiTimeout]

/-- A flag that is not a port flag leaves the three UDP ports as they are. -/
theorem setFlag_ports (f : Flags) (a : FlagArg) (h : a.isPort = false) :
    (setFlag f a).portDHCP = f.portDHCP ∧ (setFlag f a).portPXE = f.portPXE ∧
    (setFlag f a).portTFTP = f.portTFTP ∧ (setFlag f a).portHTTP = f.portHTTP := by
  cases a <;> simp_all [setFlag, FlagArg.isPort]

theorem foldl_setFlag_apiTimeout (args : List FlagArg) (f : Flags)
    (h : ∀ a ∈ args, a.isApiTimeout = false) :
    (args.foldl setFlag f).apiTimeout = f.apiTimeout := by
  induction args generalizing f with
  | nil => rfl
  | cons a as ih =>
    simp only [List.foldl_cons]
    rw [ih _ (fun b hb => h b (List.mem_cons_of_mem _ hb))]
    exact setFlag_apiTimeout f a (h a (List.mem_cons_self _ _))

theorem foldl_setFlag_ports (args : List FlagArg) (f : Flags)
    (h : ∀ a ∈ args, a.isPort = false) :
    (args.foldl setFlag f).portDHCP = f.portDHCP ∧ (args.foldl setFlag f).portPXE = f.portPXE ∧
    (args.foldl setFlag f).portTFTP = f.portTFTP ∧ (args.foldl setFlag f).portHTTP = f.portHTTP := by
  induction args generalizing f with
  | nil => exact ⟨rfl, rfl, rfl, rfl⟩
  | cons a as ih =>
    simp only [List.foldl_cons]
    have h1 := ih (setFlag f a) (fun b hb => h b (List.mem_cons_of_mem _ hb))
    have h2 := setFlag_ports f a (h a (List.mem_cons_self _ _))
    exact ⟨h1.1.trans h2.1, h1.2.1.trans h2.2.1, h1.2.2.1.trans h2.2.2.1,
      h1.2.2.2.trans h2.2.2.2⟩

/-! ## Lemmas on `strings.Split` and `strings.Join` -/

theorem lit_comma : lit "," = [comma] := by decide

theorem stringsSplit_ne_nil (sep : Byte) (s : GoString) : stringsSplit sep s ≠ [] := by
  cases s with
  | nil => simp [stringsSplit]
  | cons c cs =>
    unfold stringsSplit
    split_ifs
    · simp
    · split <;> simp

theorem stringsJoin_cons_cons (sep w w2 : GoString) (ws : List GoString) :
    stringsJoin sep (w :: w2 :: ws) = w ++ sep ++ stringsJoin sep (w2 :: ws) := rfl

theorem stringsJoin_push (sep : GoString) (c : Byte) (w : GoString) (ws : List GoString) :
    stringsJoin sep ((c :: w) :: ws) = c :: stringsJoin sep (w :: ws) := by
  cases ws with
  | nil => rfl
  | cons w2 ws => simp [stringsJoin_cons_cons]

theorem stringsSplit_cons_sep (sep : Byte) (cs : GoString) :
    stringsSplit sep (sep :: cs) = [] :: stringsSplit sep cs := by
  simp [stringsSplit]

theorem stringsSplit_cons_of_ne (sep c : Byte) (cs w : GoString) (ws : List GoString)
    (hc : c ≠ sep) (hw : stringsSplit sep cs = w :: ws) :
    stringsSplit sep (c :: cs) = (c :: w) :: ws := by
  simp [stringsSplit, hc, hw]

/-- Joining the pieces with the separator gives the string back. -/
theorem stringsJoin_stringsSplit (sep : Byte) (s : GoString) :
    stringsJoin [sep] (stringsSplit sep s) = s := by
  induction s with
  | nil => rfl
  | cons c cs ih =>
    obtain ⟨w, ws, hw⟩ := List.exists_cons_of_ne_nil (stringsSplit_ne_nil sep cs)
    rw [hw] at ih
    by_cases hc : c = sep
    · subst hc
      rw [stringsSplit_cons_sep, hw, stringsJoin_cons_cons, ih]
      rfl
    · rw [stringsSplit_cons_of_ne sep c cs w ws hc hw, stringsJoin_push, ih]

/-- No piece contains the separator: the string is cut at every occurrence. -/
theorem stringsSplit_no_sep (sep : Byte) (s : GoString) :
    ∀ w ∈ stringsSplit sep s, sep ∉ w := by
  induction s with
  | nil => simp [stringsSplit]
  | cons c cs ih =>
    obtain ⟨w, ws, hw⟩ := List.exists_cons_of_ne_nil (stringsSplit_ne_nil sep cs)
    rw [hw] at ih
    by_cases hc : c = sep
    · subst hc
      rw [stringsSplit_cons_sep, hw]
      intro v hv
      rcases List.mem_cons.mp hv with h | h
      · simp [h]
      · exact ih v h
    · rw [stringsSplit_cons_of_ne sep c cs w ws hc hw]
      intro v hv
      rcases List.mem_cons.mp hv with h | h
      · subst h
        simp only [List.mem_cons, not_or]
        exact ⟨fun e => hc e.symm, ih w (List.mem_cons_self _ _)⟩
      · exact ih v (List.mem_cons_of_mem _ h)

theorem stringsSplit_single (sep : Byte) (w : GoString) (hw : sep ∉ w) :
    stringsSplit sep w = [w] := by
  induction w with
  | nil => rfl
  | cons c cs ih =>
    simp only [List.mem_cons, not_or] at hw
    exact stringsSplit_cons_of_ne sep c cs cs [] (fun e => hw.1 e.symm) (ih hw.2)

theorem stringsSplit_append_sep (sep : Byte) (w rest : GoString) (hw : sep ∉ w) :
    stringsSplit sep (w ++ sep :: rest) = w :: stringsSplit sep rest := by
  induction w with
  | nil => exact stringsSplit_cons_sep sep rest
  | cons c cs ih =>
    simp only [List.mem_cons, not_or] at hw
    rw [List.cons_append]
    exact stringsSplit_cons_of_ne sep c _ cs _ (fun e => hw.1 e.symm) (ih hw.2)

/-- The pieces are determined by the two properties above: a non-empty list
of separator-free strings is what `strings.Split` returns on its join. -/
theorem stringsSplit_stringsJoin (sep : Byte) (l : List GoString) (hne : l ≠ [])
    (hl : ∀ w ∈ l, sep ∉ w) : stringsSplit sep (stringsJoin [sep] l) = l := by
  induction l with
  | nil => exact absurd rfl hne
  | cons w ws ih =>
    cases ws with
    | nil => exact stringsSplit_single sep w (hl w (List.mem_cons_self _ _))
    | cons w2 ws =>
      rw [stringsJoin_cons_cons, List.append_assoc, List.singleton_append,
        stringsSplit_append_sep sep w _ (hl w (List.mem_cons_self _ _)),
        ih (by simp) (fun v hv => hl v (List.mem_cons_of_mem _ hv))]

/-- The model of `strings.Split` agrees with the library function that
splits a list at every occurrence of an element. -/
theorem stringsSplit_eq_splitOn (sep : Byte) (s : GoString) :
    stringsSplit sep s = List.splitOn sep s := by
  induction s with
  | nil => rfl
  | cons c cs ih =>
    unfold List.splitOn at ih ⊢
    rw [List.splitOnP_cons]
    obtain ⟨w, ws, hw⟩ := List.exists_cons_of_ne_nil (stringsSplit_ne_nil sep cs)
    by_cases hc : c = sep
    · subst hc
      rw [stringsSplit_cons_sep, ih]
      simp
    · rw [stringsSplit_cons_of_ne sep c cs w ws hc hw, ← ih, hw]
      simp [hc]

/-! ## Backend selection: conflicting and missing configuration -/

/-- C1: when `-api` is non-empty and at least one of `-kernel`, `-initrd`,
`-cmdline` is non-empty, `pickBooter` returns an error made by `errors.New`
and a nil booter, and it performs no step at all: neither `RemoteBooter` nor
`StaticBooter` is called. -/
theorem pickBooter_rejects_api_with_static {B X : Type} (env : Env B X) (f : Flags)
    (hapi : f.apiServer ≠ [])
    (hstatic : f.kernelFile ≠ [] ∨ f.initrdFile ≠ [] ∨ f.kernelCmdline ≠ []) :
    (∃ msg, (pickBooter env f).err = some (GoError.errorsNew msg)) ∧
    (pickBooter env f).booter = none ∧
    (pickBooter env f).trace = [] ∧
    ∀ e ∈ (pickBooter env f).trace, e.isBooterConstruction = false := by
  unfold pickBooter
  by_cases hk : f.kernelFile = []
  · by_cases hi : f.initrdFile = []
    · have hc : f.kernelCmdline ≠ [] := by
        rcases hstatic with h | h | h
        · exact absurd hk h
        · exact absurd hi h
        · exact h
      simp [hapi, hk, hi, hc]
    · simp [hapi, hk, hi]
  · simp [hapi, hk]

/-- An instance of C1: `-api http://b -initrd i` is rejected. -/
theorem pickBooter_rejects_api_with_static_witness :
    (flagParse [.api (lit "http://b"), .initrd (lit "i")]).apiServer ≠ [] ∧
    (∃ msg, (pickBooter sampleEnv
        (flagParse [.api (lit "http://b"), .initrd (lit "i")])).err
      = some (GoError.errorsNew msg)) ∧
    (pickBooter sampleEnv (flagParse [.api (lit "http://b"), .initrd (lit "i")])).booter
      = none :=
  ⟨by decide,
   (pickBooter_rejects_api_with_static sampleEnv
      (flagParse [.api (lit "http://b"), .initrd (lit "i")])
      (by decide) (Or.inr (Or.inl (by decide)))).1,
   (pickBooter_rejects_api_with_static sampleEnv
      (flagParse [.api (lit "http://b"), .initrd (lit "i")])
      (by decide) (Or.inr (Or.inl (by decide)))).2.1⟩

/-- C2: when `-api` and `-kernel` are both empty, `pickBooter` returns the
error of its `default` case ("must specify either -api, or ...") and a nil
booter, for
every value of `-initrd` and `-cmdline`, and calls no constructor. -/
theorem pickBooter_rejects_missing_backend {B X : Type} (env : Env B X) (f : Flags)
    (hapi : f.apiServer = []) (hkernel : f.kernelFile = []) :
    (pickBooter env f).err
      = some (GoError.errorsNew "must specify either -api, or -kernel/-initrd") ∧
    (pickBooter env f).booter = none ∧
    (pickBooter env f).trace = [] := by
  unfold pickBooter
  simp [hapi, hkernel]

/-- An instance of C2: `-initrd i -cmdline c` without `-kernel` is rejected. -/
theorem pickBooter_rejects_missing_backend_witness :
    (flagParse [.initrd (lit "i"), .cmdline (lit "c")]).initrdFile ≠ [] ∧
    (pickBooter sampleEnv (flagParse [.initrd (lit "i"), .cmdline (lit "c")])).err
      = some (GoError.errorsNew "must specify either -api, or -kernel/-initrd") :=
  ⟨by decide,
   (pickBooter_rejects_missing_backend sampleEnv
      (flagParse [.initrd (lit "i"), .cmdline (lit "c")]) (by decide) (by decide)).1⟩

/-- C10: `pickBooter` never returns the error "cannot provide -api with
-kernel" of its static branch; with `-api` given, a conflict is reported for
`-kernel` first, then for `-initrd`, then for `-cmdline`. -/
theorem pickBooter_conflict_order {B X : Type} (env : Env B X) (f : Flags) :
    (pickBooter env f).err ≠ some (GoError.errorsNew "cannot provide -api with -kernel") ∧
    (f.apiServer ≠ [] → f.kernelFile ≠ [] →
      (pickBooter env f).err
        = some (GoError.errorsNew "cannot provide -kernel with -api")) ∧
    (f.apiServer ≠ [] → f.kernelFile = [] → f.initrdFile ≠ [] →
      (pickBooter env f).err
        = some (GoError.errorsNew "cannot provide -initrd with -api")) ∧
    (f.apiServer ≠ [] → f.kernelFile = [] → f.initrdFile = [] → f.kernelCmdline ≠ [] →
      (pickBooter env f).err
        = some (GoError.errorsNew "cannot provide -cmdline with -api")) := by
  unfold pickBooter
  refine ⟨?_, ?_, ?_, ?_⟩
  · split_ifs <;> simp
  · intro ha hk; simp [ha, hk]
  · intro ha hk hi; simp [ha, hk, hi]
  · intro ha hk hi hc; simp [ha, hk, hi, hc]

/-- An instance of C10: with `-api`, `-kernel`, `-initrd` and `-cmdline` all
given, the error names `-kernel`. -/
theorem pickBooter_conflict_order_witness :
    (pickBooter sampleEnv
      (flagParse [.cmdline (lit "c"), .initrd (lit "i"), .kernel (lit "k"),
        .api (lit "a")])).err
      = some (GoError.errorsNew "cannot provide -kernel with -api") :=
  (pickBooter_conflict_order sampleEnv
    (flagParse [.cmdline (lit "c"), .initrd (lit "i"), .kernel (lit "k"),
      .api (lit "a")])).2.1 (by decide) (by decide)

/-! ## Backend selection: the static and the remote policy -/

/-- C3 (as amended): in static mode (`-api` empty, `-kernel` non-empty)
`pickBooter` returns the booter made by `StaticBooter` with a nil error,
whatever the state `r` of the file system: it checks no path. -/
theorem pickBooter_static_never_fails {B X : Type} (env : Env B X) (f : Flags)
    (r : GoString → Bool) (hapi : f.apiServer = []) (hkernel : f.kernelFile ≠ []) :
    (pickBooter { env with readable := r } f).err = none ∧
    ∃ l, (pickBooter { env with readable := r } f).booter
      = some (env.StaticBooter f.kernelFile l f.kernelCmdline) := by
  refine ⟨?_, (if f.initrdFile ≠ [] then stringsSplit comma f.initrdFile else []), ?_⟩ <;>
    simp [pickBooter, hapi, hkernel]

/-- An instance of C3 (as amended): `-kernel vmlinuz` with no readable file. -/
theorem pickBooter_static_never_fails_witness :
    (flagParse [.kernel (lit "vmlinuz")]).kernelFile ≠ [] ∧
    (pickBooter { sampleEnv with readable := fun _ => false }
      (flagParse [.kernel (lit "vmlinuz")])).err = none :=
  ⟨by decide,
   (pickBooter_static_never_fails sampleEnv (flagParse [.kernel (lit "vmlinuz")])
      (fun _ => false) (by decide) (by decide)).1⟩

/-- C3 (as stated) fails: with `-kernel vmlinuz -initrd initrd.img` and a
file system on which no path is readable, `pickBooter` returns a booter and a
nil error. -/
theorem pickBooter_static_unreadable_accepted :
    (flagParse [.kernel (lit "vmlinuz"), .initrd (lit "initrd.img")]).apiServer = [] ∧
    (flagParse [.kernel (lit "vmlinuz"), .initrd (lit "initrd.img")]).kernelFile ≠ [] ∧
    sampleEnv.readable (lit "vmlinuz") = false ∧
    sampleEnv.readable (lit "initrd.img") = false ∧
    (pickBooter sampleEnv
      (flagParse [.kernel (lit "vmlinuz"), .initrd (lit "initrd.img")])).err = none ∧
    (pickBooter sampleEnv
      (flagParse [.kernel (lit "vmlinuz"), .initrd (lit "initrd.img")])).booter
      = some (SampleBooter.static (lit "vmlinuz") [lit "initrd.img"] (lit "")) := by
  decide

/-- C4: in static mode (`-api` empty, `-kernel` = K non-empty) `pickBooter`
calls `StaticBooter(K, L, C)` once, returns its booter with a nil error and
calls no other constructor; C is the `-cmdline` value; L is empty when
`-initrd` is empty, and otherwise L is `-initrd` split at every comma: no
piece contains a comma and joining L with "," gives `-initrd` back. -/
theorem pickBooter_static_arguments {B X : Type} (env : Env B X) (f : Flags)
    (hapi : f.apiServer = []) (hkernel : f.kernelFile ≠ []) :
    ∃ l : List GoString,
      (pickBooter env f).booter = some (env.StaticBooter f.kernelFile l f.kernelCmdline) ∧
      (pickBooter env f).err = none ∧
      (pickBooter env f).trace.filter Event.isBooterConstruction
        = [Event.callStaticBooter f.kernelFile l f.kernelCmdline] ∧
      (f.initrdFile = [] → l = []) ∧
      (f.initrdFile ≠ [] →
        l = stringsSplit comma f.initrdFile ∧ l ≠ [] ∧
        stringsJoin (lit ",") l = f.initrdFile ∧ ∀ w ∈ l, comma ∉ w) := by
  unfold pickBooter
  by_cases hi : f.initrdFile = []
  · exact ⟨[], by simp [hapi, hkernel, hi, Event.isBooterConstruction]⟩
  · refine ⟨stringsSplit comma f.initrdFile, ?_, ?_, ?_, ?_, ?_⟩
    · simp [hapi, hkernel, hi]
    · simp [hapi, hkernel, hi]
    · simp [hapi, hkernel, hi, Event.isBooterConstruction]
    · intro h; exact absurd h hi
    · intro _
      exact ⟨rfl, stringsSplit_ne_nil _ _, by rw [lit_comma, stringsJoin_stringsSplit],
        stringsSplit_no_sep _ _⟩

/-- An instance of C4: `-kernel K -initrd I1,I2 -cmdline C` makes
`StaticBooter("K", ["I1", "I2"], "C")`. -/
theorem pickBooter_static_arguments_witness :
    (∃ l : List GoString,
      (pickBooter sampleEnv (flagParse [.kernel (lit "K"), .initrd (lit "I1,I2"),
          .cmdline (lit "C")])).booter
        = some (SampleBooter.static (lit "K") l (lit "C")) ∧
      stringsJoin (lit ",") l = lit "I1,I2") ∧
    (pickBooter sampleEnv (flagParse [.kernel (lit "K"), .initrd (lit "I1,I2"),
        .cmdline (lit "C")])).booter
      = some (SampleBooter.static (lit "K") [lit "I1", lit "I2"] (lit "C")) :=
  ⟨(pickBooter_static_arguments sampleEnv
      (flagParse [.kernel (lit "K"), .initrd (lit "I1,I2"), .cmdline (lit "C")])
      (by decide) (by decide)).imp
      (fun _ h => ⟨h.1, (h.2.2.2.2 (by decide)).2.2.1⟩),
   by decide⟩

/-- C8: with `-api` = A non-empty and `-kernel`, `-initrd`, `-cmdline` empty,
`pickBooter` calls `RemoteBooter(A, T)` once, T being the `-api-timeout`
value, returns its booter and its error unchanged and calls no other
constructor; T is 5 seconds when `-api-timeout` is not given. -/
theorem pickBooter_remote_passthrough {B X : Type} (env : Env B X) (args : List FlagArg)
    (hapi : (flagParse args).apiServer ≠ [])
    (hkernel : (flagParse args).kernelFile = [])
    (hinitrd : (flagParse args).initrdFile = [])
    (hcmdline : (flagParse args).kernelCmdline = []) :
    (pickBooter env (flagParse args)).booter
      = (env.RemoteBooter (flagParse args).apiServer (flagParse args).apiTimeout).1 ∧
    (pickBooter env (flagParse args)).err
      = (env.RemoteBooter (flagParse args).apiServer (flagParse args).apiTimeout).2.map
          GoError.foreign ∧
    (pickBooter env (flagParse args)).trace.filter Event.isBooterConstruction
      = [Event.callRemoteBooter (flagParse args).apiServer (flagParse args).apiTimeout] ∧
    ((∀ a ∈ args, a.isApiTimeout = false) →
      (flagParse args).apiTimeout = 5 * timeSecond ∧ 5 * timeSecond = 5000000000) := by
  refine ⟨?_, ?_, ?_, ?_⟩
  · unfold pickBooter; simp [hapi, hkernel, hinitrd, hcmdline]
  · unfold pickBooter; simp [hapi, hkernel, hinitrd, hcmdline]
  · unfold pickBooter; simp [hapi, hkernel, hinitrd, hcmdline, Event.isBooterConstruction]
  · intro h
    exact ⟨foldl_setFlag_apiTimeout args defaultFlags h, by decide⟩

/-- An instance of C8: `-api http://b` alone calls `RemoteBooter` with the
default time-out of 5 seconds. -/
theorem pickBooter_remote_passthrough_witness :
    (flagParse [.api (lit "http://b")]).apiServer ≠ [] ∧
    (pickBooter sampleEnv (flagParse [.api (lit "http://b")])).trace.filter
        Event.isBooterConstruction
      = [Event.callRemoteBooter (flagParse [.api (lit "http://b")]).apiServer
          (flagParse [.api (lit "http://b")]).apiTimeout] ∧
    (flagParse [.api (lit "http://b")]).apiTimeout = 5 * timeSecond :=
  ⟨by decide,
   (pickBooter_remote_passthrough sampleEnv [.api (lit "http://b")]
      (by decide) (by decide) (by decide) (by decide)).2.2.1,
   ((pickBooter_remote_passthrough sampleEnv [.api (lit "http://b")]
      (by decide) (by decide) (by decide) (by decide)).2.2.2 (by decide)).1⟩

/-! ## `main`: lemmas on its steps -/

/-- The static branch of `pickBooter` returns a nil error. -/
theorem pickBooter_static_err {B X : Type} (env : Env B X) (f : Flags)
    (hapi : f.apiServer = []) (hkernel : f.kernelFile ≠ []) :
    (pickBooter env f).err = none := by
  simp [pickBooter, hapi, hkernel]

theorem pxelinux_ne_ldlinux : lit "lpxelinux.0" ≠ lit "ldlinux.c32" := by decide

theorem listeners_append {B X : Type} (a b : List (Event B X)) :
    listeners (a ++ b) = listeners a ++ listeners b := by
  induction a with
  | nil => rfl
  | cons e es ih => cases e <;> simp [listeners, ih]

theorem listeners_eq_nil {B X : Type} (a : List (Event B X))
    (h : ∀ e ∈ a, e.isListenerStart = false) : listeners a = [] := by
  induction a with
  | nil => rfl
  | cons e es ih =>
    have he := h e (List.mem_cons_self _ _)
    have := ih (fun x hx => h x (List.mem_cons_of_mem _ hx))
    cases e <;> simp_all [listeners, Event.isListenerStart]

/-- The steps of `pickBooter` start no listener. -/
theorem pickBooter_trace_no_listener {B X : Type} (env : Env B X) (f : Flags) :
    ∀ e ∈ (pickBooter env f).trace, e.isListenerStart = false := by
  unfold pickBooter
  split_ifs <;> simp [Event.isListenerStart]

/-- The run of `main` when backend selection fails. -/
theorem main_of_pick_error {B X : Type} (env : Env B X) (args : List FlagArg)
    (e : GoError X) (h : (pickBooter env (flagParse args)).err = some e) :
    main env args = (pickBooter env (flagParse args)).trace ++
      [Event.flagUsage, Event.fprintfStderr "\nERROR: %s\n" e, Event.osExit 1] := by
  simp [main, h]

/-- The listener calls of a run of `main` that reaches the goroutines. -/
theorem listeners_main_ok {B X : Type} (env : Env B X) (args : List FlagArg)
    (hok : startupOk env (flagParse args)) :
    listeners (main env args) =
      [Listener.serveProxyDHCP
          (sprintfAddr (flagParse args).listenAddr (flagParse args).portDHCP)
          (pickBooter env (flagParse args)).booter,
       Listener.servePXE
          (sprintfAddr (flagParse args).listenAddr (flagParse args).portPXE)
          (flagParse args).portHTTP,
       Listener.tftpListenAndServe "udp4"
          (sprintfAddr (flagParse args).listenAddr (flagParse args).portTFTP)
          (env.Blob (env.Asset (lit "lpxelinux.0")).1),
       Listener.serveHTTP (flagParse args).listenAddr (flagParse args).portHTTP
          (pickBooter env (flagParse args)).booter (env.Asset (lit "ldlinux.c32")).1] := by
  obtain ⟨h1, h2, h3⟩ := hok
  simp [main, h1, h2, h3, listeners_append,
    listeners_eq_nil _ (pickBooter_trace_no_listener env (flagParse args)), listeners]

/-- A run of `main` starts no listener unless start-up succeeded. -/
theorem listeners_main_cases {B X : Type} (env : Env B X) (args : List FlagArg) :
    listeners (main env args) = [] ∨ startupOk env (flagParse args) := by
  cases h1 : (pickBooter env (flagParse args)).err with
  | some e =>
    left
    simp [main, h1, listeners_append,
      listeners_eq_nil _ (pickBooter_trace_no_listener env (flagParse args)), listeners]
  | none =>
    cases h2 : (env.Asset (lit "lpxelinux.0")).2 with
    | some e =>
      left
      simp [main, h1, h2, listeners_append,
        listeners_eq_nil _ (pickBooter_trace_no_listener env (flagParse args)), listeners]
    | none =>
      cases h3 : (env.Asset (lit "ldlinux.c32")).2 with
      | some e =>
        left
        simp [main, h1, h2, h3, listeners_append,
          listeners_eq_nil _ (pickBooter_trace_no_listener env (flagParse args)), listeners]
      | none => exact Or.inr ⟨h1, h2, h3⟩

/-! ## `main`: start-up failure, ports and assets -/

/-- C5: when `pickBooter` returns an error, the run of `main` is the steps of
`pickBooter` followed by the usage text, the error printed on standard error
and `os.Exit(1)`; no step of the run starts a listener. -/
theorem main_exits_before_listeners {B X : Type} (env : Env B X) (args : List FlagArg)
    (e : GoError X) (h : (pickBooter env (flagParse args)).err = some e) :
    main env args = (pickBooter env (flagParse args)).trace ++
      [Event.flagUsage, Event.fprintfStderr "\nERROR: %s\n" e, Event.osExit 1] ∧
    (∀ ev ∈ main env args, ev.isListenerStart = false) ∧
    listeners (main env args) = [] := by
  have hrun := main_of_pick_error env args e h
  have hno : ∀ ev ∈ main env args, ev.isListenerStart = false := by
    intro ev hev
    rw [hrun] at hev
    rcases List.mem_append.mp hev with h1 | h1
    · exact pickBooter_trace_no_listener env _ ev h1
    · simp only [List.mem_cons, List.mem_singleton, List.not_mem_nil, or_false] at h1
      rcases h1 with h1 | h1 | h1 <;> subst h1 <;> rfl
  exact ⟨hrun, hno, listeners_eq_nil _ hno⟩

/-- An instance of C5: the run of `main` without any flag. -/
theorem main_exits_before_listeners_witness :
    (pickBooter sampleEnv (flagParse [])).err
      = some (GoError.errorsNew "must specify either -api, or -kernel/-initrd") ∧
    main sampleEnv [] =
      [Event.flagUsage,
       Event.fprintfStderr "\nERROR: %s\n"
         (GoError.errorsNew "must specify either -api, or -kernel/-initrd"),
       Event.osExit 1] ∧
    listeners (main sampleEnv []) = [] :=
  ⟨by decide,
   (main_exits_before_listeners sampleEnv []
      (GoError.errorsNew "must specify either -api, or -kernel/-initrd") (by decide)).1,
   (main_exits_before_listeners sampleEnv []
      (GoError.errorsNew "must specify either -api, or -kernel/-initrd") (by decide)).2.2⟩

/-- C6 (as stated) fails: no implementation of `tftp.Blob` makes the TFTP
service started by `main` answer a request for `ldlinux.c32` with the bytes
of that asset for every content of the asset bundle: `main` hands the
service the bytes of `lpxelinux.0` only. -/
theorem tftp_service_cannot_serve_ldlinux :
    ¬ ∃ blob : GoString → TFTPHandler,
      ∀ asset : GoString → GoString × Option String,
        ∀ h ∈ tftpHandlers (listeners (main
            { sampleEnv with Blob := blob, Asset := asset } [FlagArg.kernel (lit "k")])),
          h (lit "ldlinux.c32") = TFTPReply.data (asset (lit "ldlinux.c32")).1 := by
  rintro ⟨blob, H⟩
  have key : ∀ v : GoString, blob [1, 2, 3] (lit "ldlinux.c32") = TFTPReply.data v := by
    intro v
    have hv := H (fun name => (if name = lit "ldlinux.c32" then v else [1, 2, 3], none))
      (blob [1, 2, 3]) (by
        rw [listeners_main_ok _ _
          ⟨pickBooter_static_err _ _ (by decide) (by decide), rfl, rfl⟩]
        simp [tftpHandlers, pxelinux_ne_ldlinux])
    simpa using hv
  have h1 := key []
  have h2 := key [0]
  rw [h1] at h2
  exact absurd h2 (by decide)

/-- C6 (as amended): the TFTP service started by `main` exposes exactly one
bundled asset, the bootstrap loader `lpxelinux.0`: with the handler of
`tftp.Blob` as the spec describes it, a request for `lpxelinux.0` returns the
exact bytes of that asset and a request for any other file name returns "file
not found"; one TFTP service is started, its handler is made from the bytes of
`lpxelinux.0` alone, and the bytes of `ldlinux.c32` go to the HTTP server. -/
theorem tftp_service_exposes_pxelinux_only {B X : Type} (env : Env B X)
    (args : List FlagArg) (hblob : env.Blob = tftpBlob)
    (hok : startupOk env (flagParse args)) :
    (∃ h, tftpHandlers (listeners (main env args)) = [h]) ∧
    (∀ h ∈ tftpHandlers (listeners (main env args)),
      h (lit "lpxelinux.0") = TFTPReply.data (env.Asset (lit "lpxelinux.0")).1 ∧
      ∀ name, name ≠ lit "lpxelinux.0" → h name = TFTPReply.fileNotFound) ∧
    tftpHandlers (listeners (main env args))
      = [env.Blob (env.Asset (lit "lpxelinux.0")).1] ∧
    (∃ a p b, Listener.serveHTTP a p b (env.Asset (lit "ldlinux.c32")).1
      ∈ listeners (main env args)) ∧
    ∀ asset : GoString → GoString × Option X,
      asset (lit "lpxelinux.0") = env.Asset (lit "lpxelinux.0") →
      ∀ h ∈ tftpHandlers (listeners (main { env with Asset := asset } args)),
        h = env.Blob (env.Asset (lit "lpxelinux.0")).1 := by
  have hlist : tftpHandlers (listeners (main env args))
      = [env.Blob (env.Asset (lit "lpxelinux.0")).1] := by
    rw [listeners_main_ok env args hok]
    rfl
  refine ⟨⟨_, hlist⟩, ?_, hlist, ?_, ?_⟩
  · intro h hh
    rw [hlist, List.mem_singleton] at hh
    subst hh
    rw [hblob]
    refine ⟨?_, ?_⟩
    · simp [tftpBlob, tftpServe, List.lookup]
    · intro name hname
      have hne : (name == lit "lpxelinux.0") = false := by
        simpa using hname
      simp [tftpBlob, tftpServe, List.lookup, hne]
  · rw [listeners_main_ok env args hok]
    exact ⟨(flagParse args).listenAddr, (flagParse args).portHTTP,
      (pickBooter env (flagParse args)).booter, by simp⟩
  · intro asset hasset h hh
    rcases listeners_main_cases { env with Asset := asset } args with h0 | h0
    · rw [h0] at hh
      simp [tftpHandlers] at hh
    · rw [listeners_main_ok _ args h0] at hh
      simp only [tftpHandlers, List.mem_singleton] at hh
      rw [hh, hasset]

/-- An instance of C6 (as amended): `-kernel k` in the sample environment,
whose bundle holds the bytes 1, 2, 3 for `lpxelinux.0`. -/
theorem tftp_service_exposes_pxelinux_only_witness :
    sampleEnv.Blob = tftpBlob ∧
    startupOk sampleEnv (flagParse [.kernel (lit "k")]) ∧
    (sampleEnv.Asset (lit "lpxelinux.0")).1 = [1, 2, 3] ∧
    (∃ h, tftpHandlers (listeners (main sampleEnv [.kernel (lit "k")])) = [h]) ∧
    (∀ h ∈ tftpHandlers (listeners (main sampleEnv [.kernel (lit "k")])),
      h (lit "lpxelinux.0") = TFTPReply.data (sampleEnv.Asset (lit "lpxelinux.0")).1 ∧
      ∀ name, name ≠ lit "lpxelinux.0" → h name = TFTPReply.fileNotFound) :=
  ⟨rfl, ⟨by decide, by decide, by decide⟩, by decide,
   (tftp_service_exposes_pxelinux_only sampleEnv [.kernel (lit "k")] rfl
      ⟨by decide, by decide, by decide⟩).1,
   (tftp_service_exposes_pxelinux_only sampleEnv [.kernel (lit "k")] rfl
      ⟨by decide, by decide, by decide⟩).2.1⟩

/-- C7: the goroutines of `main` call the ProxyDHCP, PXE and TFTP listeners
with the address `fmt.Sprintf("%s:%d", listen-addr, port)` of their own port
flag (the HTTP server gets `-listen-addr` and `-port-http` as they are); when
no port flag is given the three ports are 67, 4011 and 69, so the addresses
are `-listen-addr` followed by ":67", ":4011" and ":69". -/
theorem main_listener_addresses {B X : Type} (env : Env B X) (args : List FlagArg)
    (hok : startupOk env (flagParse args)) :
    listeners (main env args) =
      [Listener.serveProxyDHCP
          (sprintfAddr (flagParse args).listenAddr (flagParse args).portDHCP)
          (pickBooter env (flagParse args)).booter,
       Listener.servePXE
          (sprintfAddr (flagParse args).listenAddr (flagParse args).portPXE)
          (flagParse args).portHTTP,
       Listener.tftpListenAndServe "udp4"
          (sprintfAddr (flagParse args).listenAddr (flagParse args).portTFTP)
          (env.Blob (env.Asset (lit "lpxelinux.0")).1),
       Listener.serveHTTP (flagParse args).listenAddr (flagParse args).portHTTP
          (pickBooter env (flagParse args)).booter (env.Asset (lit "ldlinux.c32")).1] ∧
    ((∀ a ∈ args, a.isPort = false) →
      (flagParse args).portDHCP = 67 ∧ (flagParse args).portPXE = 4011 ∧
      (flagParse args).portTFTP = 69 ∧
      sprintfAddr (flagParse args).listenAddr (flagParse args).portDHCP
        = (flagParse args).listenAddr ++ lit ":67" ∧
      sprintfAddr (flagParse args).listenAddr (flagParse args).portPXE
        = (flagParse args).listenAddr ++ lit ":4011" ∧
      sprintfAddr (flagParse args).listenAddr (flagParse args).portTFTP
        = (flagParse args).listenAddr ++ lit ":69") := by
  refine ⟨listeners_main_ok env args hok, fun hports => ?_⟩
  obtain ⟨h1, h2, h3, _⟩ := foldl_setFlag_ports args defaultFlags hports
  have e1 : (flagParse args).portDHCP = 67 := h1
  have e2 : (flagParse args).portPXE = 4011 := h2
  have e3 : (flagParse args).portTFTP = 69 := h3
  refine ⟨e1, e2, e3, ?_, ?_, ?_⟩
  · rw [e1, sprintfAddr, List.append_assoc]; rfl
  · rw [e2, sprintfAddr, List.append_assoc]; rfl
  · rw [e3, sprintfAddr, List.append_assoc]; rfl

/-- An instance of C7: `-listen-addr 10.0.0.1 -kernel k`. -/
theorem main_listener_addresses_witness :
    startupOk sampleEnv (flagParse [.listenAddr (lit "10.0.0.1"), .kernel (lit "k")]) ∧
    (sprintfAddr (flagParse [.listenAddr (lit "10.0.0.1"), .kernel (lit "k")]).listenAddr
        (flagParse [.listenAddr (lit "10.0.0.1"), .kernel (lit "k")]).portPXE
      = (flagParse [.listenAddr (lit "10.0.0.1"), .kernel (lit "k")]).listenAddr
          ++ lit ":4011") ∧
    (flagParse [.listenAddr (lit "10.0.0.1"), .kernel (lit "k")]).listenAddr ++ lit ":4011"
      = lit "10.0.0.1:4011" ∧
    sprintfAddr (lit "::1") 6969 = lit "::1:6969" :=
  ⟨⟨by decide, by decide, by decide⟩,
   ((main_listener_addresses sampleEnv [.listenAddr (lit "10.0.0.1"), .kernel (lit "k")]
      ⟨by decide, by decide, by decide⟩).2 (by decide)).2.2.2.2.1,
   by decide, by decide⟩

/-- C9: in every run of `main` the PXE boot-service responder and the HTTP
server are given the same HTTP port, the value of `-port-http`; a run that
reaches the goroutines starts exactly one of each. -/
theorem main_http_port_consistent {B X : Type} (env : Env B X) (args : List FlagArg) :
    (listeners (main env args)).filterMap Listener.advertisedHTTPPort
      = (listeners (main env args)).filterMap Listener.servedHTTPPort ∧
    (∀ p ∈ (listeners (main env args)).filterMap Listener.advertisedHTTPPort,
      p = (flagParse args).portHTTP) ∧
    (startupOk env (flagParse args) →
      (listeners (main env args)).filterMap Listener.advertisedHTTPPort
        = [(flagParse args).portHTTP] ∧
      (listeners (main env args)).filterMap Listener.servedHTTPPort
        = [(flagParse args).portHTTP]) := by
  have hok : startupOk env (flagParse args) →
      (listeners (main env args)).filterMap Listener.advertisedHTTPPort
        = [(flagParse args).portHTTP] ∧
      (listeners (main env args)).filterMap Listener.servedHTTPPort
        = [(flagParse args).portHTTP] := by
    intro h
    rw [listeners_main_ok env args h]
    exact ⟨rfl, rfl⟩
  rcases listeners_main_cases env args with h0 | h0
  · refine ⟨by rw [h0]; rfl, ?_, hok⟩
    rw [h0]
    intro p hp
    simp at hp
  · obtain ⟨ha, hs⟩ := hok h0
    refine ⟨ha.trans hs.symm, ?_, hok⟩
    rw [ha]
    intro p hp
    simpa using hp

/-- An instance of C9: `-port-http 8080 -kernel k`. -/
theorem main_http_port_consistent_witness :
    (listeners (main sampleEnv [.portHTTP 8080, .kernel (lit "k")])).filterMap
        Listener.advertisedHTTPPort = [8080] ∧
    (listeners (main sampleEnv [.portHTTP 8080, .kernel (lit "k")])).filterMap
        Listener.servedHTTPPort = [8080] :=
  (main_http_port_consistent sampleEnv [.portHTTP 8080, .kernel (lit "k")]).2.2
    ⟨by decide, by decide, by decide⟩

end Pixiecore
